import Mathlib

/-!
Shallow embedding of the resilience layer of the HackerHub fitness client
(`FitnessBackendService`): connectivity-gated dispatch, the retry/backoff
executor, the offline request queue, the TTL config cache, and the
fallback-data synthesizer.

Conventions of the embedding:
* JavaScript numbers are modelled as `ℚ` (exact arithmetic); timestamps
  (`Date.now()` values, milliseconds) as `ℕ`.
* `Math.sin` and `Math.PI` are deterministic host functions; they are
  modelled as an explicit parameter `JsMath` so every theorem is proved for
  an arbitrary interpretation of them.
* `Math.random()` results are passed in explicitly (`rand` arguments).
* Effectful methods become pure functions that take the relevant fields of
  the service object as a `SvcState` and return the updated state; the HTTP
  responses observed by the `k`-th attempt of a call are supplied by an
  oracle `ℕ → …Resp`.  The body of a response is the already-decoded,
  transformed and validated payload (`Except` of the validation error),
  matching the spot where the source either returns the parsed value or
  throws.
-/

/-- `Math` host functions used by the fallback synthesizer: the sine
function and the constant `Math.PI` (a fixed double, hence a rational). -/
structure JsMath where
  sin : ℚ → ℚ
  pi : ℚ

/-- The `stage` enumeration of `PoseData`. -/
inductive Stage where
  | up
  | down
  | hold
  | rest
deriving DecidableEq, Repr

/-- `PoseKeypoint` from the service's type definitions. -/
structure PoseKeypoint where
  x : ℚ
  y : ℚ
  z : Option ℚ
  visibility : Option ℚ
  name : String
deriving DecidableEq, Repr

/-- `PoseData` from the service's type definitions.  `timestamp` stores the
`Date.now()` instant whose ISO rendering the source puts in the field. -/
structure PoseData where
  keypoints : List PoseKeypoint
  confidence : ℚ
  formScore : ℤ
  currentRep : ℕ
  stage : Stage
  warnings : List String
  timestamp : ℕ
deriving DecidableEq, Repr

/-- The `thresholds` object carried by the fallback exercise configs
(`minAngle`/`maxAngle`/`holdTime`). -/
structure Thresholds where
  minAngle : ℚ
  maxAngle : ℚ
  holdTime : ℚ
deriving DecidableEq, Repr

/-- The `feedback` flags of an `ExerciseConfig`. -/
structure FeedbackFlags where
  realTimeEnabled : Bool
  audioEnabled : Bool
  visualEnabled : Bool
deriving DecidableEq, Repr

/-- `ExerciseConfig` as actually populated by the service (the fields the
fallback table and the validator both touch). -/
structure ExerciseConfig where
  exerciseType : String
  targetKeypoints : List String
  thresholds : Thresholds
  formChecks : List String
  feedback : FeedbackFlags
deriving DecidableEq, Repr

/-- `AnalysisResult` (payload of a video upload); opaque to the claims,
kept with its identifying fields. -/
structure AnalysisResult where
  sessionId : String
  exerciseType : String
  totalReps : ℕ
  accuracy : ℚ
  duration : ℚ
  calories : ℚ
  keypoints : List PoseKeypoint
  recommendations : List String
deriving DecidableEq, Repr

/-- The payload sent by `submitSessionSummary`. -/
structure SessionData where
  exerciseType : String
  duration : ℕ
  totalReps : ℕ
  averageAccuracy : ℚ
  userId : String
deriving DecidableEq, Repr

/-- The `{sessionId, summary}` object returned by the session-summary
endpoint. -/
structure SummaryResult where
  sessionId : String
  summary : String
deriving DecidableEq, Repr

/-- `RetryConfig` of the service. -/
structure RetryConfig where
  maxRetries : ℕ
  baseDelay : ℚ
  maxDelay : ℚ
  backoffFactor : ℚ
deriving DecidableEq, Repr

/-- The service's default retry configuration. -/
def defaultRetryConfig : RetryConfig :=
  { maxRetries := 3, baseDelay := 1000, maxDelay := 10000, backoffFactor := 2 }

/-- `calculateRetryDelay`: `min(baseDelay * backoffFactor^retryCount,
maxDelay)` plus `rand * 0.1 * delay` of jitter, where `rand` is the
`Math.random()` draw of that call. -/
def calculateRetryDelay (cfg : RetryConfig) (retryCount : ℕ) (rand : ℚ) : ℚ :=
  let delay := min (cfg.baseDelay * cfg.backoffFactor ^ retryCount) cfg.maxDelay
  delay + rand * (1 / 10) * delay

/-- Lower-case a character list (the model of `message.toLowerCase()`). -/
def lowerChars (l : List Char) : List Char := l.map Char.toLower

/-- Boolean substring test (the model of `String.prototype.includes`). -/
def charsInclude (s pat : List Char) : Bool := decide (pat <:+: s)

/-- `isNonRetryableError`: an error is non-retryable when its lower-cased
message contains one of `401`/`unauthorized`, `400`/`bad request`,
`404`/`not found`, `413`/`payload too large`. -/
def isNonRetryableError (msg : String) : Bool :=
  let m := lowerChars msg.toList
  charsInclude m "401".toList || charsInclude m "unauthorized".toList ||
  charsInclude m "400".toList || charsInclude m "bad request".toList ||
  charsInclude m "404".toList || charsInclude m "not found".toList ||
  charsInclude m "413".toList || charsInclude m "payload too large".toList

/-- The message of the error thrown by the connectivity check inside
`executeWithRetry`. -/
def noNetworkMsg : String := "No network connection"

/-- Observable outcome of one `executeWithRetry` call: the value returned
or the error finally thrown, how many times the wrapped `requestFn` was
invoked, the attempt indices after which a backoff wait happened, and how
many loop iterations started. -/
structure RetryTrace (T : Type) where
  result : Except String T
  invocations : ℕ
  waits : List ℕ
  attemptsStarted : ℕ
deriving Repr

/-- One step of the `executeWithRetry` loop.  `remaining` is
`maxRetries - attempt`, so `remaining = 0` exactly when the source's
`attempt >= maxRetries` exhaustion test fires.  Before each attempt the
tracked connectivity is read (`connected attempt`); when it is `false` the
iteration throws `noNetworkMsg` without invoking `att`.  A non-retryable
error is rethrown at once; otherwise the loop waits and retries, and on
exhaustion the last error is rethrown. -/
def retryAux {T : Type} (connected : ℕ → Bool) (att : ℕ → Except String T) :
    ℕ → ℕ → RetryTrace T
  | 0, attempt =>
    let invoked : ℕ := if connected attempt then 1 else 0
    match (if connected attempt then att attempt else Except.error noNetworkMsg) with
    | Except.ok v => ⟨Except.ok v, invoked, [], 1⟩
    | Except.error e => ⟨Except.error e, invoked, [], 1⟩
  | r + 1, attempt =>
    let invoked : ℕ := if connected attempt then 1 else 0
    match (if connected attempt then att attempt else Except.error noNetworkMsg) with
    | Except.ok v => ⟨Except.ok v, invoked, [], 1⟩
    | Except.error e =>
      if isNonRetryableError e then ⟨Except.error e, invoked, [], 1⟩
      else
        let rest := retryAux connected att r (attempt + 1)
        ⟨rest.result, invoked + rest.invocations, attempt :: rest.waits,
          1 + rest.attemptsStarted⟩

/-- `executeWithRetry(requestFn, label, maxRetries)`: run the loop from
attempt `0` with `maxRetries` retries left. -/
def executeWithRetry {T : Type} (connected : ℕ → Bool)
    (att : ℕ → Except String T) (maxRetries : ℕ) : RetryTrace T :=
  retryAux connected att maxRetries 0

/-- The 8000 ms cycle of the fallback pose synthesizer. -/
def fallbackCycleMs : ℕ := 8000

/-- `progress = (now % cycleTime) / cycleTime`. -/
def fallbackProgress (now : ℕ) : ℚ :=
  ((now % fallbackCycleMs : ℕ) : ℚ) / (fallbackCycleMs : ℚ)

/-- The stage chosen by the 4-phase branch cascade of
`getFallbackPoseData` (thresholds 0.2 / 0.5 / 0.7 of the cycle). -/
def fallbackStage (p : ℚ) : Stage :=
  if p < 1 / 5 then Stage.rest
  else if p < 1 / 2 then Stage.down
  else if p < 7 / 10 then Stage.hold
  else Stage.up

/-- The raw (pre-`Math.round`) form score of `getFallbackPoseData`. -/
def fallbackFormScore (jm : JsMath) (p : ℚ) : ℚ :=
  if p < 1 / 5 then 85 + jm.sin (p * 10) * 3
  else if p < 1 / 2 then 88 + jm.sin (p * 8) * 4
  else if p < 7 / 10 then 92 + jm.sin (p * 12) * 2
  else 90 + jm.sin (p * 6) * 3

/-- The advisory warnings of `getFallbackPoseData`, by phase. -/
def fallbackWarnings (p : ℚ) : List String :=
  if p < 1 / 5 then ["Get ready to start your squat"]
  else if p < 1 / 2 then ["Descending - control the movement", "Keep your back straight"]
  else if p < 7 / 10 then ["Hold position - great depth!"]
  else ["Rising up - push through your heels"]

/-- `getFallbackPoseData(exerciseType)` evaluated at instant `now`
(`Date.now()` at the call).  The `currentRep` assigned inside the `hold`
branch is unconditionally overwritten by the final
`Math.floor(now / cycleTime) + 1`, which is the value modelled here.  The
exercise type is accepted but (as in the source) does not influence the
produced data. -/
def getFallbackPoseData (jm : JsMath) (_exerciseType : String) (now : ℕ) : PoseData :=
  let p := fallbackProgress now
  let baseY : ℚ := 1 / 2 + jm.sin (p * jm.pi * 2) * (1 / 10)
  { keypoints := [
      ⟨9 / 20, baseY - 1 / 10, some (1 / 10), some (19 / 20), "left_hip"⟩,
      ⟨11 / 20, baseY - 1 / 10, some (1 / 10), some (19 / 20), "right_hip"⟩,
      ⟨43 / 100, baseY + 3 / 20, some (1 / 5), some (23 / 25), "left_knee"⟩,
      ⟨57 / 100, baseY + 3 / 20, some (1 / 5), some (23 / 25), "right_knee"⟩,
      ⟨2 / 5, baseY + 7 / 20, some (3 / 10), some (9 / 10), "left_ankle"⟩,
      ⟨3 / 5, baseY + 7 / 20, some (3 / 10), some (9 / 10), "right_ankle"⟩],
    confidence := 22 / 25 + jm.sin (p * 4) * (1 / 20),
    formScore := round (fallbackFormScore jm p),
    currentRep := now / fallbackCycleMs + 1,
    stage := fallbackStage p,
    warnings := fallbackWarnings p,
    timestamp := now }

/-- The `squat` entry of the fallback exercise-config table. -/
def squatFallbackConfig : ExerciseConfig :=
  { exerciseType := "squat",
    targetKeypoints := ["left_hip", "right_hip", "left_knee", "right_knee",
      "left_ankle", "right_ankle"],
    thresholds := ⟨90, 170, 1⟩,
    formChecks := ["knee_alignment", "back_straight", "depth_check"],
    feedback := ⟨true, true, true⟩ }

/-- The `push_up` entry of the fallback exercise-config table. -/
def pushUpFallbackConfig : ExerciseConfig :=
  { exerciseType := "push_up",
    targetKeypoints := ["left_shoulder", "right_shoulder", "left_elbow",
      "right_elbow", "left_wrist", "right_wrist"],
    thresholds := ⟨45, 160, 1 / 2⟩,
    formChecks := ["elbow_alignment", "body_straight", "full_range"],
    feedback := ⟨true, true, true⟩ }

/-- `getFallbackExerciseConfig`: table lookup defaulting to the squat
entry for unknown exercise types. -/
def getFallbackExerciseConfig (exerciseType : String) : ExerciseConfig :=
  if exerciseType = "squat" then squatFallbackConfig
  else if exerciseType = "push_up" then pushUpFallbackConfig
  else squatFallbackConfig

/-- `CacheEntry<ExerciseConfig>`. -/
structure CacheEntry where
  data : ExerciseConfig
  timestamp : ℕ
  expiresAt : ℕ
deriving DecidableEq, Repr

/-- `CACHE_DURATION = 30 * 60 * 1000` ms. -/
def cacheDurationMs : ℕ := 30 * 60 * 1000

/-- `Map.get`: first (and, by the `cacheSet` discipline, only) binding of
the key. -/
def cacheLookup : List (String × CacheEntry) → String → Option CacheEntry
  | [], _ => none
  | (k, v) :: rest, key => if k = key then some v else cacheLookup rest key

/-- `Map.delete`: remove the bindings of the key. -/
def cacheErase : List (String × CacheEntry) → String → List (String × CacheEntry)
  | [], _ => []
  | (k, v) :: rest, key =>
    if k = key then cacheErase rest key else (k, v) :: cacheErase rest key

/-- `Map.set`: overwrite the binding of the key. -/
def cacheSet (l : List (String × CacheEntry)) (key : String) (e : CacheEntry) :
    List (String × CacheEntry) :=
  cacheErase l key ++ [(key, e)]

/-- `getCachedConfig`: return the entry's data unless absent or
`Date.now() > expiresAt`; an expired entry is deleted and `null` is
returned. -/
def getCachedConfig (cache : List (String × CacheEntry)) (now : ℕ)
    (exerciseType : String) : Option ExerciseConfig × List (String × CacheEntry) :=
  match cacheLookup cache exerciseType with
  | none => (none, cache)
  | some e =>
    if now > e.expiresAt then (none, cacheErase cache exerciseType)
    else (some e.data, cache)

/-- The four `QueuedRequest` kinds. -/
inductive ReqType where
  | video
  | frame
  | config
  | summary
deriving DecidableEq, Repr

/-- The payload stored in a `QueuedRequest`. -/
inductive ReqData where
  | videoPayload (videoPath exerciseType : String)
  | framePayload (frameData exerciseType : String)
  | configPayload (exerciseType : String)
  | summaryPayload (s : SessionData)
deriving DecidableEq, Repr

/-- `QueuedRequest`. -/
structure QueuedRequest where
  id : String
  type : ReqType
  data : ReqData
  timestamp : ℕ
  retryCount : ℕ
deriving DecidableEq, Repr

/-- The string used in the generated request id for each kind. -/
def reqTypeName : ReqType → String
  | ReqType.video => "video"
  | ReqType.frame => "frame"
  | ReqType.config => "config"
  | ReqType.summary => "summary"

/-- The generated id `` `${type}_${Date.now()}_${randSuffix}` ``;
`randSuffix` is the `Math.random()`-derived suffix of that call. -/
def mkRequestId (ty : ReqType) (now : ℕ) (randSuffix : String) : String :=
  reqTypeName ty ++ "_" ++ toString now ++ "_" ++ randSuffix

/-- The fields of the service object the embedded operations read and
write: discovered base URL, the `isConnected` component of the tracked
`networkStatus`, the offline queue, the config cache, the retry
configuration, and the `Date.now()` instant at which the call runs. -/
structure SvcState where
  baseUrl : Option String
  networkConnected : Bool
  requestQueue : List QueuedRequest
  configCache : List (String × CacheEntry)
  retryConfig : RetryConfig
  now : ℕ

/-- `queueRequest`: append a fresh request (retryCount 0) to the queue and
return its id. -/
def queueRequest (st : SvcState) (randSuffix : String) (ty : ReqType)
    (d : ReqData) : String × SvcState :=
  let id := mkRequestId ty st.now randSuffix
  (id, { st with requestQueue :=
    st.requestQueue ++ [⟨id, ty, d, st.now, 0⟩] })

/-- `cacheConfig`: store the config under the exercise type with
`expiresAt = Date.now() + CACHE_DURATION`. -/
def cacheConfig (st : SvcState) (exerciseType : String)
    (config : ExerciseConfig) : SvcState :=
  { st with configCache :=
    cacheSet st.configCache exerciseType ⟨config, st.now, st.now + cacheDurationMs⟩ }

/-- `response.ok` of `fetch`: a 2xx status. -/
def statusOk (status : ℕ) : Bool := decide (200 ≤ status ∧ status < 300)

/-- The response observed by one `analyzeFrame` attempt: the HTTP status
and, for a 2xx response, the result of decoding + envelope unwrapping +
validation + keypoint transformation (`Except` carries the thrown
message). -/
structure FrameResp where
  status : ℕ
  body : Except String PoseData

/-- The response observed by one `getExerciseConfig` attempt (body as for
`FrameResp`, after `transformExerciseConfig` and validation). -/
structure ConfigResp where
  status : ℕ
  body : Except String ExerciseConfig

/-- The response observed by one `uploadVideo` attempt. -/
structure UploadResp where
  status : ℕ
  body : Except String AnalysisResult

/-- The response observed by one `submitSessionSummary` attempt. -/
structure SummaryResp where
  status : ℕ
  body : Except String SummaryResult

/-- The `requestFn` body of `analyzeFrame`: on 401/403 (auth), 422
(format) or 500 (server) return the synthetic fallback pose data instead
of throwing; on any other non-2xx status throw; on 2xx return the
validated payload. -/
def frameRequest (jm : JsMath) (exerciseType : String) (now : ℕ)
    (resp : FrameResp) : Except String PoseData :=
  if statusOk resp.status = false then
    if resp.status = 403 ∨ resp.status = 401 then
      Except.ok (getFallbackPoseData jm exerciseType now)
    else if resp.status = 422 then
      Except.ok (getFallbackPoseData jm exerciseType now)
    else if resp.status = 500 then
      Except.ok (getFallbackPoseData jm exerciseType now)
    else
      Except.error ("Frame analysis failed: " ++ toString resp.status)
  else
    resp.body

/-- Distinguishes how a `getExerciseConfig` attempt succeeded: a value
fetched from the backend (which the source then caches) or a synthetic
fallback (returned without caching). -/
inductive ConfigSuccess where
  | fetched (config : ExerciseConfig)
  | fallback (config : ExerciseConfig)
deriving DecidableEq, Repr

/-- The `requestFn` body of `getExerciseConfig`: on 401/403, 404 or 500
return the fallback table entry; on any other non-2xx status throw; on
2xx return the transformed + validated config (to be cached). -/
def configRequest (exerciseType : String) (resp : ConfigResp) :
    Except String ConfigSuccess :=
  if statusOk resp.status = false then
    if resp.status = 403 ∨ resp.status = 401 then
      Except.ok (ConfigSuccess.fallback (getFallbackExerciseConfig exerciseType))
    else if resp.status = 404 then
      Except.ok (ConfigSuccess.fallback (getFallbackExerciseConfig exerciseType))
    else if resp.status = 500 then
      Except.ok (ConfigSuccess.fallback (getFallbackExerciseConfig exerciseType))
    else
      Except.error ("Failed to get exercise config: " ++ toString resp.status)
  else
    resp.body.map ConfigSuccess.fetched

/-- The `requestFn` body of `uploadVideo` (the XMLHttpRequest load
handler): non-2xx statuses always throw, there is no fallback. -/
def uploadRequest (resp : UploadResp) : Except String AnalysisResult :=
  if statusOk resp.status = false then
    Except.error ("Upload failed with status " ++ toString resp.status)
  else
    resp.body

/-- The `requestFn` body of `submitSessionSummary`: non-2xx statuses
always throw, there is no fallback. -/
def summaryRequest (resp : SummaryResp) : Except String SummaryResult :=
  if statusOk resp.status = false then
    Except.error ("Session summary failed: " ++ toString resp.status)
  else
    resp.body

/-- What one public operation call produced: its returned value or thrown
error, the service state after the call, and how many network requests
were dispatched (invocations of the wrapped `requestFn`). -/
structure OpTrace (T : Type) where
  result : Except String T
  state : SvcState
  networkCalls : ℕ

/-- `analyzeFrame`: requires an initialized base URL; while offline it
throws at once — the real-time path never queues; while online it runs
the request through `executeWithRetry` with `maxRetries = 1`. -/
def analyzeFrame (jm : JsMath) (st : SvcState) (resps : ℕ → FrameResp)
    (_frameData exerciseType : String) : OpTrace PoseData :=
  if st.baseUrl = none then
    ⟨Except.error "Backend service not initialized", st, 0⟩
  else if st.networkConnected = false then
    ⟨Except.error "No network connection for real-time analysis", st, 0⟩
  else
    let tr := executeWithRetry (fun _ => st.networkConnected)
      (fun k => frameRequest jm exerciseType st.now (resps k)) 1
    ⟨tr.result, st, tr.invocations⟩

/-- `uploadVideo`: requires an initialized base URL; while offline the
request is queued and the call throws the queued-signal error; while
online it uploads with the full retry policy. -/
def uploadVideo (st : SvcState) (resps : ℕ → UploadResp) (randSuffix : String)
    (videoPath exerciseType : String) : OpTrace AnalysisResult :=
  if st.baseUrl = none then
    ⟨Except.error "Backend service not initialized", st, 0⟩
  else if st.networkConnected = false then
    let queued := queueRequest st randSuffix ReqType.video
      (ReqData.videoPayload videoPath exerciseType)
    ⟨Except.error ("No network connection. Request queued with ID: " ++ queued.1),
      queued.2, 0⟩
  else
    let tr := executeWithRetry (fun _ => st.networkConnected)
      (fun k => uploadRequest (resps k)) st.retryConfig.maxRetries
    ⟨tr.result, st, tr.invocations⟩

/-- `getExerciseConfig`: requires an initialized base URL; the cache is
consulted first; on a miss while offline the request is queued and the
call throws the queued-signal error; on a miss while online it fetches
with the full retry policy and caches a successfully fetched config
(`cacheConfig` sits on the 2xx path only — a `ConfigSuccess.fallback`
value is returned without being cached). -/
def getExerciseConfig (st : SvcState) (resps : ℕ → ConfigResp)
    (randSuffix : String) (exerciseType : String) : OpTrace ExerciseConfig :=
  if st.baseUrl = none then
    ⟨Except.error "Backend service not initialized", st, 0⟩
  else
    match getCachedConfig st.configCache st.now exerciseType with
    | (some c, cache') => ⟨Except.ok c, { st with configCache := cache' }, 0⟩
    | (none, cache') =>
      let st1 := { st with configCache := cache' }
      if st1.networkConnected = false then
        let queued := queueRequest st1 randSuffix ReqType.config
          (ReqData.configPayload exerciseType)
        ⟨Except.error ("No network connection. Request queued with ID: " ++ queued.1),
          queued.2, 0⟩
      else
        let tr := executeWithRetry (fun _ => st1.networkConnected)
          (fun k => configRequest exerciseType (resps k)) st1.retryConfig.maxRetries
        match tr.result with
        | Except.ok (ConfigSuccess.fetched c) =>
          ⟨Except.ok c, cacheConfig st1 exerciseType c, tr.invocations⟩
        | Except.ok (ConfigSuccess.fallback c) => ⟨Except.ok c, st1, tr.invocations⟩
        | Except.error e => ⟨Except.error e, st1, tr.invocations⟩

/-- `submitSessionSummary`: requires an initialized base URL; while
offline the request is queued and the call throws the queued-signal
error; while online it submits with the full retry policy. -/
def submitSessionSummary (st : SvcState) (resps : ℕ → SummaryResp)
    (randSuffix : String) (sessionData : SessionData) : OpTrace SummaryResult :=
  if st.baseUrl = none then
    ⟨Except.error "Backend service not initialized", st, 0⟩
  else if st.networkConnected = false then
    let queued := queueRequest st randSuffix ReqType.summary
      (ReqData.summaryPayload sessionData)
    ⟨Except.error ("No network connection. Request queued with ID: " ++ queued.1),
      queued.2, 0⟩
  else
    let tr := executeWithRetry (fun _ => st.networkConnected)
      (fun k => summaryRequest (resps k)) st.retryConfig.maxRetries
    ⟨tr.result, st, tr.invocations⟩

/-- One pass of `processRequestQueue`: snapshot the queue, clear it,
replay each snapshot entry in order (`succeeds r` tells whether the
replayed operation succeeded), and re-append a failed entry with
`retryCount + 1` unless its `retryCount` already reached
`retryConfig.maxRetries`.  Returns the state after the pass and the ids
in the order their replay attempts were started. -/
def processRequestQueue (st : SvcState) (succeeds : QueuedRequest → Bool) :
    SvcState × List String :=
  if st.requestQueue = [] then (st, [])
  else
    let snapshot := st.requestQueue
    let finalQueue := snapshot.foldl (fun acc r =>
      if succeeds r then acc
      else if r.retryCount < st.retryConfig.maxRetries then
        acc ++ [{ r with retryCount := r.retryCount + 1 }]
      else acc) []
    ({ st with requestQueue := finalQueue }, snapshot.map (fun r => r.id))

/-- A fixed interpretation of the `Math` host functions, used for concrete
evaluations. -/
def jm0 : JsMath := ⟨fun _ => 0, 0⟩

/-- A disconnected, initialized service state with empty queue and cache. -/
def stOffline : SvcState :=
  ⟨some "http://192.168.1.10:8000", false, [], [], defaultRetryConfig, 10000⟩

/-- A connected, initialized service state with empty queue and cache. -/
def stOnline : SvcState :=
  ⟨some "http://192.168.1.10:8000", true, [], [], defaultRetryConfig, 10000⟩

theorem noNetworkMsg_retryable : isNonRetryableError noNetworkMsg = false := by decide

theorem retryAux_disconnected {T : Type} (connected : ℕ → Bool)
    (att : ℕ → Except String T) (hc : ∀ k, connected k = false) :
    ∀ r attempt, retryAux connected att r attempt =
      ⟨Except.error noNetworkMsg, 0, List.range' attempt r, r + 1⟩ := by
  intro r
  induction r with
  | zero =>
    intro attempt
    simp [retryAux, hc attempt, List.range']
  | succ r ih =>
    intro attempt
    simp [retryAux, hc attempt, noNetworkMsg_retryable, ih (attempt + 1), List.range']
    omega

theorem retryAux_all_retryable {T : Type} (connected : ℕ → Bool)
    (att : ℕ → Except String T) (e : ℕ → String) (hc : ∀ k, connected k = true) :
    ∀ r attempt,
      (∀ j, j ≤ r → att (attempt + j) = Except.error (e (attempt + j)) ∧
        isNonRetryableError (e (attempt + j)) = false) →
      retryAux connected att r attempt =
        ⟨Except.error (e (attempt + r)), r + 1, List.range' attempt r, r + 1⟩ := by
  intro r
  induction r with
  | zero =>
    intro attempt h
    have h0 := h 0 (Nat.le_refl 0)
    simp only [Nat.add_zero] at h0
    simp [retryAux, hc attempt, h0.1, h0.2, List.range']
  | succ r ih =>
    intro attempt h
    have h0 := h 0 (Nat.zero_le _)
    simp only [Nat.add_zero] at h0
    have hrest := ih (attempt + 1) (fun j hj => by
      have := h (j + 1) (Nat.succ_le_succ hj)
      simpa [Nat.add_assoc, Nat.add_comm 1 j] using this)
    have harith : attempt + 1 + r = attempt + (r + 1) := by omega
    rw [harith] at hrest
    simp [retryAux, hc attempt, h0.1, h0.2, hrest, List.range']
    omega

theorem retryAux_nonretryable_at {T : Type} (connected : ℕ → Bool)
    (att : ℕ → Except String T) (e : ℕ → String) (hc : ∀ k, connected k = true) :
    ∀ k r attempt, k ≤ r →
      (∀ j, j < k → att (attempt + j) = Except.error (e (attempt + j)) ∧
        isNonRetryableError (e (attempt + j)) = false) →
      att (attempt + k) = Except.error (e (attempt + k)) →
      isNonRetryableError (e (attempt + k)) = true →
      retryAux connected att r attempt =
        ⟨Except.error (e (attempt + k)), k + 1, List.range' attempt k, k + 1⟩ := by
  intro k
  induction k with
  | zero =>
    intro r attempt _ _ hatt hnon
    simp only [Nat.add_zero] at hatt hnon
    cases r with
    | zero => simp [retryAux, hc attempt, hatt, List.range']
    | succ r => simp [retryAux, hc attempt, hatt, hnon, List.range']
  | succ k ih =>
    intro r attempt hkr hpre hatt hnon
    cases r with
    | zero => omega
    | succ r =>
      have h0 := hpre 0 (Nat.succ_pos k)
      simp only [Nat.add_zero] at h0
      have harith : attempt + 1 + k = attempt + (k + 1) := by omega
      have hrest := ih r (attempt + 1) (Nat.le_of_succ_le_succ hkr)
        (fun j hj => by
          have := hpre (j + 1) (Nat.succ_lt_succ hj)
          simpa [Nat.add_assoc, Nat.add_comm 1 j] using this)
        (by rw [harith]; exact hatt) (by rw [harith]; exact hnon)
      rw [harith] at hrest
      simp [retryAux, hc attempt, h0.1, h0.2, hrest, List.range']
      omega

theorem retryAux_invocations_le {T : Type} (connected : ℕ → Bool)
    (att : ℕ → Except String T) :
    ∀ r attempt, (retryAux connected att r attempt).invocations ≤ r + 1 := by
  intro r
  induction r with
  | zero =>
    intro attempt
    by_cases hcon : connected attempt = true
    · cases hatt : att attempt <;> simp [retryAux, hcon, hatt]
    · simp only [Bool.not_eq_true] at hcon
      simp [retryAux, hcon]
  | succ r ih =>
    intro attempt
    have hrest := ih (attempt + 1)
    by_cases hcon : connected attempt = true
    · cases hatt : att attempt with
      | ok v => simp [retryAux, hcon, hatt]
      | error e =>
        by_cases hn : isNonRetryableError e = true
        · simp [retryAux, hcon, hatt, hn]
        · simp only [Bool.not_eq_true] at hn
          simp only [retryAux, hcon, if_true, hatt, hn, Bool.false_eq_true, if_false]
          omega
    · simp only [Bool.not_eq_true] at hcon
      simp only [retryAux, hcon, Bool.false_eq_true, if_false,
        noNetworkMsg_retryable]
      omega


theorem cacheLookup_cacheErase_self (key : String) :
    ∀ l : List (String × CacheEntry), cacheLookup (cacheErase l key) key = none := by
  intro l
  induction l with
  | nil => simp [cacheErase, cacheLookup]
  | cons p rest ih =>
    obtain ⟨k, v⟩ := p
    by_cases hk : k = key
    · simp [cacheErase, hk, ih]
    · simp [cacheErase, cacheLookup, hk, ih]

theorem cacheLookup_append (key : String) :
    ∀ l₁ l₂ : List (String × CacheEntry),
      cacheLookup (l₁ ++ l₂) key =
        match cacheLookup l₁ key with
        | some v => some v
        | none => cacheLookup l₂ key := by
  intro l₁ l₂
  induction l₁ with
  | nil => simp [cacheLookup]
  | cons p rest ih =>
    obtain ⟨k, v⟩ := p
    by_cases hk : k = key
    · simp [cacheLookup, hk]
    · simp [cacheLookup, hk, ih]

theorem cacheLookup_cacheSet_self (l : List (String × CacheEntry))
    (key : String) (e : CacheEntry) :
    cacheLookup (cacheSet l key e) key = some e := by
  unfold cacheSet
  rw [cacheLookup_append, cacheLookup_cacheErase_self]
  simp [cacheLookup]

theorem getExerciseConfig_cache_hit (st : SvcState) (u exerciseType : String)
    (e : CacheEntry) (resps : ℕ → ConfigResp) (randSuffix : String)
    (hurl : st.baseUrl = some u)
    (hhit : cacheLookup st.configCache exerciseType = some e)
    (hfresh : st.now ≤ e.expiresAt) :
    getExerciseConfig st resps randSuffix exerciseType = ⟨Except.ok e.data, st, 0⟩ := by
  have hnotexp : ¬ st.now > e.expiresAt := by omega
  simp [getExerciseConfig, hurl, getCachedConfig, hhit, hnotexp]
  rw [← hurl]

theorem getFallbackPoseData_stage_eq (jm : JsMath) (ty : String) (now : ℕ) :
    (getFallbackPoseData jm ty now).stage = fallbackStage (fallbackProgress now) := rfl

/-- C9: the synthetic pose-data generator is a deterministic function of
the exercise type and the current instant — two calls evaluated at the
same instant return identical `PoseData` — and a call at `t + 8000` ms is
in the same cycle phase (same stage) as a call at `t`. -/
theorem c9_fallback_pose_deterministic_periodic (jm : JsMath) (ty : String)
    (t1 t2 : ℕ) (h : t1 = t2) :
    getFallbackPoseData jm ty t1 = getFallbackPoseData jm ty t2 ∧
    (getFallbackPoseData jm ty (t1 + 8000)).stage = (getFallbackPoseData jm ty t1).stage := by
  subst h
  refine ⟨rfl, ?_⟩
  rw [getFallbackPoseData_stage_eq, getFallbackPoseData_stage_eq]
  have hmod : (t1 + 8000) % fallbackCycleMs = t1 % fallbackCycleMs := by
    simp [fallbackCycleMs]
  unfold fallbackProgress
  rw [hmod]

/-- Witness for C9 at `t = 3000`. -/
theorem c9_fallback_pose_deterministic_periodic_witness :
    getFallbackPoseData jm0 "squat" 3000 = getFallbackPoseData jm0 "squat" 3000 ∧
    (getFallbackPoseData jm0 "squat" (3000 + 8000)).stage =
      (getFallbackPoseData jm0 "squat" 3000).stage :=
  c9_fallback_pose_deterministic_periodic jm0 "squat" 3000 3000 rfl

/-- C7: a drain replays exactly the queued requests in their queue order
(the replay-start order is the queue's id list), and `queueRequest`
appends at the tail; hence if A was enqueued before B, A's replay attempt
starts before B's — the offline queue never reorders entries. -/
theorem c7_replay_order_equals_enqueue_order (st : SvcState)
    (succeeds : QueuedRequest → Bool) :
    (processRequestQueue st succeeds).2 = st.requestQueue.map (fun r => r.id) ∧
    ∀ (randSuffix : String) (ty : ReqType) (d : ReqData),
      ((queueRequest st randSuffix ty d).2).requestQueue =
        st.requestQueue ++ [⟨mkRequestId ty st.now randSuffix, ty, d, st.now, 0⟩] := by
  constructor
  · by_cases h : st.requestQueue = []
    · simp [processRequestQueue, h]
    · simp [processRequestQueue, h]
  · intro randSuffix ty d
    simp [queueRequest]

/-- A one-entry cache whose single entry expires at instant 100. -/
def cacheAtExpiry : List (String × CacheEntry) :=
  [("squat", ⟨squatFallbackConfig, 0, 100⟩)]

/-- C6 counterexample: read at `now = 100 = expiresAt`.  The claim says a
lookup at `now ≥ expiresAt` removes the entry and reports absent, but the
code's test is `now > expiresAt`, so at the expiry instant itself the
value is still served and the entry kept. -/
theorem c6_counterexample :
    getCachedConfig cacheAtExpiry 100 "squat" = (some squatFallbackConfig, cacheAtExpiry) ∧
    ¬ (getCachedConfig cacheAtExpiry 100 "squat").1 = none := by
  refine ⟨rfl, ?_⟩
  decide

/-- C6 amended: a lookup returns the stored value iff `now ≤ expiresAt`
(the entry is still served at the exact expiry instant); only when
`now > expiresAt` is the entry removed and absent reported — an entry is
never served strictly past its expiry. -/
theorem c6_cache_expiry_amended (cache : List (String × CacheEntry)) (now : ℕ)
    (key : String) (e : CacheEntry) (hhit : cacheLookup cache key = some e) :
    (now ≤ e.expiresAt → getCachedConfig cache now key = (some e.data, cache)) ∧
    (now > e.expiresAt → getCachedConfig cache now key = (none, cacheErase cache key)) := by
  constructor
  · intro h
    have hno : ¬ now > e.expiresAt := by omega
    simp [getCachedConfig, hhit, hno]
  · intro h
    simp [getCachedConfig, hhit, h]

/-- Witness for C6 amended on the one-entry cache, before and after
expiry. -/
theorem c6_cache_expiry_amended_witness :
    getCachedConfig cacheAtExpiry 50 "squat" = (some squatFallbackConfig, cacheAtExpiry) ∧
    getCachedConfig cacheAtExpiry 200 "squat" = (none, []) :=
  ⟨(c6_cache_expiry_amended cacheAtExpiry 50 "squat" ⟨squatFallbackConfig, 0, 100⟩ rfl).1
      (by decide),
   (c6_cache_expiry_amended cacheAtExpiry 200 "squat" ⟨squatFallbackConfig, 0, 100⟩ rfl).2
      (by decide)⟩

/-- C5 counterexample: with the default config and attempt `k = 4`,
`baseDelay * factor^4 = 16000` but the computed delay is the clamped
10000 (jitter 0), violating the claimed lower bound; and with jitter draw
1/2 the returned delay is 10500, exceeding `maxDelay` — the clamp is
applied before the jitter, not after. -/
theorem c5_counterexample :
    calculateRetryDelay defaultRetryConfig 4 0 = 10000 ∧
    defaultRetryConfig.baseDelay * defaultRetryConfig.backoffFactor ^ 4 = 16000 ∧
    ¬ (defaultRetryConfig.baseDelay * defaultRetryConfig.backoffFactor ^ 4 ≤
        calculateRetryDelay defaultRetryConfig 4 0) ∧
    calculateRetryDelay defaultRetryConfig 4 (1 / 2) = 10500 ∧
    ¬ (calculateRetryDelay defaultRetryConfig 4 (1 / 2) ≤ defaultRetryConfig.maxDelay) := by
  refine ⟨?_, ?_, ?_, ?_, ?_⟩ <;>
    norm_num [calculateRetryDelay, defaultRetryConfig]

/-- C5 amended: for jitter draw `0 ≤ j < 1` the delay satisfies
`c ≤ delay ≤ c * 1.1` where `c = min(baseDelay * factor^k, maxDelay)` is
the clamped pre-jitter value; the returned delay may exceed `maxDelay` by
the jitter but never exceeds `maxDelay * 1.1`. -/
theorem c5_backoff_bounds_amended (cfg : RetryConfig) (k : ℕ) (j : ℚ)
    (hbase : 0 ≤ cfg.baseDelay) (hfac : 0 ≤ cfg.backoffFactor)
    (hmax : 0 ≤ cfg.maxDelay) (hj0 : 0 ≤ j) (hj1 : j < 1) :
    min (cfg.baseDelay * cfg.backoffFactor ^ k) cfg.maxDelay ≤
      calculateRetryDelay cfg k j ∧
    calculateRetryDelay cfg k j ≤
      min (cfg.baseDelay * cfg.backoffFactor ^ k) cfg.maxDelay * (11 / 10) ∧
    calculateRetryDelay cfg k j ≤ cfg.maxDelay * (11 / 10) := by
  have hc0 : (0 : ℚ) ≤ min (cfg.baseDelay * cfg.backoffFactor ^ k) cfg.maxDelay :=
    le_min (by positivity) hmax
  have hcm : min (cfg.baseDelay * cfg.backoffFactor ^ k) cfg.maxDelay ≤ cfg.maxDelay :=
    min_le_right _ _
  have hjm : j * min (cfg.baseDelay * cfg.backoffFactor ^ k) cfg.maxDelay ≤
      min (cfg.baseDelay * cfg.backoffFactor ^ k) cfg.maxDelay := by
    nlinarith
  simp only [calculateRetryDelay]
  refine ⟨by nlinarith, by nlinarith, by nlinarith⟩

/-- Witness for C5 amended: default config, attempt 2, jitter draw 1/2. -/
theorem c5_backoff_bounds_amended_witness :
    min (defaultRetryConfig.baseDelay * defaultRetryConfig.backoffFactor ^ 2)
      defaultRetryConfig.maxDelay ≤ calculateRetryDelay defaultRetryConfig 2 (1 / 2) ∧
    calculateRetryDelay defaultRetryConfig 2 (1 / 2) ≤
      min (defaultRetryConfig.baseDelay * defaultRetryConfig.backoffFactor ^ 2)
        defaultRetryConfig.maxDelay * (11 / 10) ∧
    calculateRetryDelay defaultRetryConfig 2 (1 / 2) ≤
      defaultRetryConfig.maxDelay * (11 / 10) :=
  c5_backoff_bounds_amended defaultRetryConfig 2 (1 / 2)
    (by norm_num [defaultRetryConfig]) (by norm_num [defaultRetryConfig])
    (by norm_num [defaultRetryConfig]) (by norm_num) (by norm_num)

/-- C3 counterexample: with connectivity reporting disconnected
throughout and `maxRetries = 3`, `executeWithRetry` does not fail
immediately: it starts 4 attempts, performing the backoff waits of
attempts 0, 1 and 2, before propagating the network-unavailable error —
so the disconnected failure does consume the retry slots. -/
theorem c3_counterexample :
    executeWithRetry (fun _ => false) (fun _ => (Except.ok 7 : Except String ℕ)) 3 =
      ⟨Except.error noNetworkMsg, 0, [0, 1, 2], 4⟩ ∧
    ¬ ((executeWithRetry (fun _ => false)
          (fun _ => (Except.ok 7 : Except String ℕ)) 3).attemptsStarted = 1 ∧
       (executeWithRetry (fun _ => false)
          (fun _ => (Except.ok 7 : Except String ℕ)) 3).waits = []) := by
  refine ⟨rfl, ?_⟩
  decide

/-- C3 amended: before each attempt the connectivity status is checked,
and while disconnected the attempt throws the network-unavailable error
without ever invoking the wrapped operation (0 invocations); but that
error is classified retryable, so it consumes every retry slot — the
loop starts `maxRetries + 1` attempts with a backoff wait after each of
the first `maxRetries`, and only then propagates the network-unavailable
error. -/
theorem c3_disconnected_amended {T : Type} (connected : ℕ → Bool)
    (att : ℕ → Except String T) (maxRetries : ℕ)
    (hc : ∀ k, connected k = false) :
    executeWithRetry connected att maxRetries =
      ⟨Except.error noNetworkMsg, 0, List.range' 0 maxRetries, maxRetries + 1⟩ ∧
    isNonRetryableError noNetworkMsg = false :=
  ⟨retryAux_disconnected connected att hc maxRetries 0, noNetworkMsg_retryable⟩

/-- Witness for C3 amended at `maxRetries = 2`. -/
theorem c3_disconnected_amended_witness :
    executeWithRetry (fun _ => false)
      (fun _ => (Except.error "timeout" : Except String ℕ)) 2 =
      ⟨Except.error noNetworkMsg, 0, List.range' 0 2, 3⟩ ∧
    isNonRetryableError noNetworkMsg = false :=
  c3_disconnected_amended (fun _ => false) (fun _ => Except.error "timeout") 2
    (fun _ => rfl)

/-- C8: with connectivity up, a failure classified non-retryable
(401/400/404/413 in the message) propagates at its first occurrence, at
attempt `k`: the loop makes exactly `k + 1` invocations and performs no
backoff wait after the non-retryable failure (the waits are exactly those
of the `k` preceding retryable failures); and when every attempt fails
with a retryable error, the loop runs all `maxRetries + 1` attempts and
propagates the last observed failure. -/
theorem c8_nonretryable_propagation (T : Type) (att : ℕ → Except String T)
    (maxRetries : ℕ) (e : ℕ → String) :
    (∀ k, k ≤ maxRetries →
      (∀ j, j < k → att j = Except.error (e j) ∧ isNonRetryableError (e j) = false) →
      att k = Except.error (e k) → isNonRetryableError (e k) = true →
      executeWithRetry (fun _ => true) att maxRetries =
        ⟨Except.error (e k), k + 1, List.range' 0 k, k + 1⟩) ∧
    ((∀ j, j ≤ maxRetries →
        att j = Except.error (e j) ∧ isNonRetryableError (e j) = false) →
      executeWithRetry (fun _ => true) att maxRetries =
        ⟨Except.error (e maxRetries), maxRetries + 1, List.range' 0 maxRetries,
          maxRetries + 1⟩) := by
  constructor
  · intro k hk hpre hatt hnon
    have h := retryAux_nonretryable_at (fun _ => true) att e (fun _ => rfl) k maxRetries 0
      hk (fun j hj => by simpa using hpre j hj) (by simpa using hatt)
      (by simpa using hnon)
    simpa [executeWithRetry] using h
  · intro hall
    have h := retryAux_all_retryable (fun _ => true) att e (fun _ => rfl) maxRetries 0
      (fun j hj => by simpa using hall j hj)
    simpa [executeWithRetry] using h

/-- Witness for C8: a 404 on the second attempt stops the loop at 2
invocations with a single wait; an always-timing-out operation runs all 4
attempts and propagates the last timeout. -/
theorem c8_nonretryable_propagation_witness :
    executeWithRetry (fun _ => true)
      (fun j => if j = 0 then (Except.error "timeout" : Except String ℕ)
        else Except.error "HTTP 404 not found") 3 =
      ⟨Except.error "HTTP 404 not found", 2, List.range' 0 1, 2⟩ ∧
    executeWithRetry (fun _ => true)
      (fun _ => (Except.error "timeout" : Except String ℕ)) 3 =
      ⟨Except.error "timeout", 4, List.range' 0 3, 4⟩ :=
  ⟨(c8_nonretryable_propagation ℕ
      (fun j => if j = 0 then Except.error "timeout" else Except.error "HTTP 404 not found")
      3 (fun j => if j = 0 then "timeout" else "HTTP 404 not found")).1 1
      (by omega)
      (fun j hj => by
        have hj0 : j = 0 := by omega
        subst hj0
        exact ⟨rfl, by decide⟩)
      rfl (by decide),
   (c8_nonretryable_propagation ℕ (fun _ => Except.error "timeout") 3
      (fun _ => "timeout")).2 (fun j _ => ⟨rfl, by decide⟩)⟩

/-- C2: while online, an `analyzeFrame` call whose first response is an
auth (401/403), validation (422) or server (500) status returns the
synthetic fallback `PoseData` (never an error) after a single network
invocation, and — for any response sequence — the call dispatches at
most 2 invocations (one initial attempt plus at most one retry, the
`maxRetries = 1` passed for frame analysis), so three consecutive
401 calls each return the synthetic data. -/
theorem c2_analyzeFrame_degrades_on_auth (jm : JsMath) (st : SvcState)
    (u frameData exerciseType : String) (fresps : ℕ → FrameResp)
    (hurl : st.baseUrl = some u) (hon : st.networkConnected = true)
    (hstatus : (fresps 0).status = 401 ∨ (fresps 0).status = 403 ∨
      (fresps 0).status = 422 ∨ (fresps 0).status = 500) :
    (analyzeFrame jm st fresps frameData exerciseType).result =
      Except.ok (getFallbackPoseData jm exerciseType st.now) ∧
    (analyzeFrame jm st fresps frameData exerciseType).networkCalls = 1 ∧
    (analyzeFrame jm st fresps frameData exerciseType).state = st ∧
    ∀ fresps' : ℕ → FrameResp,
      (analyzeFrame jm st fresps' frameData exerciseType).networkCalls ≤ 2 := by
  have hreq : frameRequest jm exerciseType st.now (fresps 0) =
      Except.ok (getFallbackPoseData jm exerciseType st.now) := by
    rcases hstatus with h | h | h | h <;> simp [frameRequest, h, statusOk]
  refine ⟨?_, ?_, ?_, ?_⟩
  · simp [analyzeFrame, hurl, hon, executeWithRetry, retryAux, hreq]
  · simp [analyzeFrame, hurl, hon, executeWithRetry, retryAux, hreq]
  · simp [analyzeFrame, hurl, hon]
  · intro fresps'
    simp only [analyzeFrame, hurl, hon]
    simp only [reduceCtorEq, Bool.true_eq_false, if_false]
    exact retryAux_invocations_le _ _ 1 0

/-- Witness for C2: a 401 response on the online state (and the
2-invocation bound at a permanently-500 oracle). -/
theorem c2_analyzeFrame_degrades_on_auth_witness :
    (analyzeFrame jm0 stOnline (fun _ => ⟨401, Except.error "unauthorized"⟩)
      "frame" "squat").result =
      Except.ok (getFallbackPoseData jm0 "squat" stOnline.now) ∧
    (analyzeFrame jm0 stOnline (fun _ => ⟨401, Except.error "unauthorized"⟩)
      "frame" "squat").networkCalls = 1 ∧
    (analyzeFrame jm0 stOnline (fun _ => ⟨401, Except.error "unauthorized"⟩)
      "frame" "squat").state = stOnline ∧
    (analyzeFrame jm0 stOnline (fun _ => ⟨503, Except.error "unavailable"⟩)
      "frame" "squat").networkCalls ≤ 2 :=
  ⟨(c2_analyzeFrame_degrades_on_auth jm0 stOnline "http://192.168.1.10:8000"
      "frame" "squat" (fun _ => ⟨401, Except.error "unauthorized"⟩) rfl rfl
      (Or.inl rfl)).1,
   (c2_analyzeFrame_degrades_on_auth jm0 stOnline "http://192.168.1.10:8000"
      "frame" "squat" (fun _ => ⟨401, Except.error "unauthorized"⟩) rfl rfl
      (Or.inl rfl)).2.1,
   (c2_analyzeFrame_degrades_on_auth jm0 stOnline "http://192.168.1.10:8000"
      "frame" "squat" (fun _ => ⟨401, Except.error "unauthorized"⟩) rfl rfl
      (Or.inl rfl)).2.2.1,
   (c2_analyzeFrame_degrades_on_auth jm0 stOnline "http://192.168.1.10:8000"
      "frame" "squat" (fun _ => ⟨401, Except.error "unauthorized"⟩) rfl rfl
      (Or.inl rfl)).2.2.2 (fun _ => ⟨503, Except.error "unavailable"⟩)⟩

/-- C10: when a non-expired cache entry exists for the requested exercise
type (and the service is initialized), `getExerciseConfig` returns the
cached value with the state unchanged — no network call, no enqueued
request — with no assumption on the tracked network status: the cache
check precedes the connectivity check. -/
theorem c10_cache_hit_before_connectivity (st : SvcState)
    (u exerciseType : String) (e : CacheEntry) (resps : ℕ → ConfigResp)
    (randSuffix : String) (hurl : st.baseUrl = some u)
    (hhit : cacheLookup st.configCache exerciseType = some e)
    (hfresh : st.now ≤ e.expiresAt) :
    getExerciseConfig st resps randSuffix exerciseType =
      ⟨Except.ok e.data, st, 0⟩ :=
  getExerciseConfig_cache_hit st u exerciseType e resps randSuffix hurl hhit hfresh

/-- A disconnected, initialized state holding a fresh cache entry for
`squat`. -/
def stOfflineCached : SvcState :=
  ⟨some "http://192.168.1.10:8000", false, [],
    [("squat", ⟨squatFallbackConfig, 0, 999999⟩)], defaultRetryConfig, 10000⟩

/-- Witness for C10: the cached squat config is served while the network
status reports disconnected. -/
theorem c10_cache_hit_before_connectivity_witness :
    getExerciseConfig stOfflineCached (fun _ => ⟨500, Except.error "server"⟩)
      "r" "squat" = ⟨Except.ok squatFallbackConfig, stOfflineCached, 0⟩ :=
  c10_cache_hit_before_connectivity stOfflineCached "http://192.168.1.10:8000"
    "squat" ⟨squatFallbackConfig, 0, 999999⟩ (fun _ => ⟨500, Except.error "server"⟩)
    "r" rfl rfl (by decide)

/-- C1 counterexample: `analyzeFrame` invoked on a disconnected,
initialized state leaves the offline queue empty — nothing is appended —
and instead throws at once; the claim that every public operation
(including `analyzeFrame`) enqueues while disconnected is false. -/
theorem c1_counterexample :
    (analyzeFrame jm0 stOffline (fun _ => ⟨200, Except.error "unused"⟩)
      "frame" "squat").state.requestQueue = [] ∧
    (analyzeFrame jm0 stOffline (fun _ => ⟨200, Except.error "unused"⟩)
      "frame" "squat").result =
      Except.error "No network connection for real-time analysis" ∧
    stOffline.networkConnected = false :=
  ⟨rfl, rfl, rfl⟩

/-- C1 amended: while the tracked network status reports disconnected
(service initialized), `uploadVideo`, `submitSessionSummary` and
`getExerciseConfig` on a cache miss each append their request to the
offline queue and dispatch no network call before returning;
`analyzeFrame` also dispatches no network call but fails fast without
enqueuing (the real-time path is deliberately never queued). -/
theorem c1_offline_dispatch_amended (jm : JsMath) (st : SvcState)
    (u randSuffix frameData videoPath exerciseType : String) (sd : SessionData)
    (fresps : ℕ → FrameResp) (uresps : ℕ → UploadResp)
    (cresps : ℕ → ConfigResp) (sresps : ℕ → SummaryResp)
    (hurl : st.baseUrl = some u) (hoff : st.networkConnected = false)
    (hmiss : (getCachedConfig st.configCache st.now exerciseType).1 = none) :
    ((uploadVideo st uresps randSuffix videoPath exerciseType).state.requestQueue =
        st.requestQueue ++ [⟨mkRequestId ReqType.video st.now randSuffix,
          ReqType.video, ReqData.videoPayload videoPath exerciseType, st.now, 0⟩] ∧
      (uploadVideo st uresps randSuffix videoPath exerciseType).networkCalls = 0) ∧
    ((submitSessionSummary st sresps randSuffix sd).state.requestQueue =
        st.requestQueue ++ [⟨mkRequestId ReqType.summary st.now randSuffix,
          ReqType.summary, ReqData.summaryPayload sd, st.now, 0⟩] ∧
      (submitSessionSummary st sresps randSuffix sd).networkCalls = 0) ∧
    ((getExerciseConfig st cresps randSuffix exerciseType).state.requestQueue =
        st.requestQueue ++ [⟨mkRequestId ReqType.config st.now randSuffix,
          ReqType.config, ReqData.configPayload exerciseType, st.now, 0⟩] ∧
      (getExerciseConfig st cresps randSuffix exerciseType).networkCalls = 0) ∧
    ((analyzeFrame jm st fresps frameData exerciseType).state.requestQueue =
        st.requestQueue ∧
      (analyzeFrame jm st fresps frameData exerciseType).networkCalls = 0 ∧
      (analyzeFrame jm st fresps frameData exerciseType).result =
        Except.error "No network connection for real-time analysis") := by
  rcases hgc : getCachedConfig st.configCache st.now exerciseType with ⟨o, cache2⟩
  rw [hgc] at hmiss
  simp only at hmiss
  subst hmiss
  refine ⟨⟨?_, ?_⟩, ⟨?_, ?_⟩, ⟨?_, ?_⟩, ?_, ?_, ?_⟩ <;>
    simp [uploadVideo, submitSessionSummary, getExerciseConfig, analyzeFrame,
      hurl, hoff, hgc, queueRequest]

/-- Witness for C1 amended on the concrete disconnected state. -/
theorem c1_offline_dispatch_amended_witness :
    ((uploadVideo stOffline (fun _ => ⟨200, Except.error "u"⟩) "r" "vid.mp4"
        "squat").state.requestQueue =
      stOffline.requestQueue ++ [⟨mkRequestId ReqType.video stOffline.now "r",
        ReqType.video, ReqData.videoPayload "vid.mp4" "squat", stOffline.now, 0⟩] ∧
      (uploadVideo stOffline (fun _ => ⟨200, Except.error "u"⟩) "r" "vid.mp4"
        "squat").networkCalls = 0) ∧
    ((submitSessionSummary stOffline (fun _ => ⟨200, Except.error "s"⟩) "r"
        ⟨"squat", 60, 10, 90, "user1"⟩).state.requestQueue =
      stOffline.requestQueue ++ [⟨mkRequestId ReqType.summary stOffline.now "r",
        ReqType.summary, ReqData.summaryPayload ⟨"squat", 60, 10, 90, "user1"⟩,
        stOffline.now, 0⟩] ∧
      (submitSessionSummary stOffline (fun _ => ⟨200, Except.error "s"⟩) "r"
        ⟨"squat", 60, 10, 90, "user1"⟩).networkCalls = 0) ∧
    ((getExerciseConfig stOffline (fun _ => ⟨200, Except.error "c"⟩) "r"
        "squat").state.requestQueue =
      stOffline.requestQueue ++ [⟨mkRequestId ReqType.config stOffline.now "r",
        ReqType.config, ReqData.configPayload "squat", stOffline.now, 0⟩] ∧
      (getExerciseConfig stOffline (fun _ => ⟨200, Except.error "c"⟩) "r"
        "squat").networkCalls = 0) ∧
    ((analyzeFrame jm0 stOffline (fun _ => ⟨200, Except.error "f"⟩) "frame"
        "squat").state.requestQueue = stOffline.requestQueue ∧
      (analyzeFrame jm0 stOffline (fun _ => ⟨200, Except.error "f"⟩) "frame"
        "squat").networkCalls = 0 ∧
      (analyzeFrame jm0 stOffline (fun _ => ⟨200, Except.error "f"⟩) "frame"
        "squat").result =
        Except.error "No network connection for real-time analysis") :=
  c1_offline_dispatch_amended jm0 stOffline "http://192.168.1.10:8000" "r"
    "frame" "vid.mp4" "squat" ⟨"squat", 60, 10, 90, "user1"⟩
    (fun _ => ⟨200, Except.error "f"⟩) (fun _ => ⟨200, Except.error "u"⟩)
    (fun _ => ⟨200, Except.error "c"⟩) (fun _ => ⟨200, Except.error "s"⟩)
    rfl rfl rfl

theorem retryAux_first_ok {T : Type} (connected : ℕ → Bool)
    (att : ℕ → Except String T) (attempt : ℕ) (v : T)
    (hc : connected attempt = true) (hatt : att attempt = Except.ok v) :
    ∀ r, retryAux connected att r attempt = ⟨Except.ok v, 1, [], 1⟩ := by
  intro r
  cases r <;> simp [retryAux, hc, hatt]

/-- C4 counterexample: online, empty cache, backend answering 500.  The
call returns the synthetic squat fallback but the cache stays empty —
the fallback value is not stored — so the immediately following call for
the same exercise type is not served from cache: it dispatches a network
call again. -/
theorem c4_counterexample :
    (getExerciseConfig stOnline (fun _ => ⟨500, Except.error "server"⟩)
      "r" "squat").result = Except.ok squatFallbackConfig ∧
    (getExerciseConfig stOnline (fun _ => ⟨500, Except.error "server"⟩)
      "r" "squat").state.configCache = [] ∧
    cacheLookup (getExerciseConfig stOnline (fun _ => ⟨500, Except.error "server"⟩)
      "r" "squat").state.configCache "squat" = none ∧
    (getExerciseConfig
      (getExerciseConfig stOnline (fun _ => ⟨500, Except.error "server"⟩)
        "r" "squat").state
      (fun _ => ⟨500, Except.error "server"⟩) "r" "squat").networkCalls = 1 :=
  ⟨rfl, rfl, rfl, rfl⟩

/-- C4 amended: on a cache miss while online, a config successfully
fetched from the backend (2xx, validated) is returned and stored in the
cache, so an immediately following call for the same exercise type is
served from cache with no network call; but a value synthesized as a
fallback on auth (401/403), not-found (404) or server (500) errors is
returned without being cached — the cache never serves synthetic
fallbacks. -/
theorem c4_config_caching_amended (st : SvcState)
    (u exerciseType randSuffix : String) (cresps : ℕ → ConfigResp)
    (c : ExerciseConfig) (hurl : st.baseUrl = some u)
    (hon : st.networkConnected = true)
    (hmiss : cacheLookup st.configCache exerciseType = none) :
    (statusOk (cresps 0).status = true → (cresps 0).body = Except.ok c →
      (getExerciseConfig st cresps randSuffix exerciseType).result = Except.ok c ∧
      (getExerciseConfig st cresps randSuffix exerciseType).state.configCache =
        cacheSet st.configCache exerciseType ⟨c, st.now, st.now + cacheDurationMs⟩ ∧
      ∀ (cresps' : ℕ → ConfigResp) (randSuffix' : String),
        getExerciseConfig
          (getExerciseConfig st cresps randSuffix exerciseType).state
          cresps' randSuffix' exerciseType =
          ⟨Except.ok c,
            (getExerciseConfig st cresps randSuffix exerciseType).state, 0⟩) ∧
    ((cresps 0).status = 401 ∨ (cresps 0).status = 403 ∨
        (cresps 0).status = 404 ∨ (cresps 0).status = 500 →
      (getExerciseConfig st cresps randSuffix exerciseType).result =
        Except.ok (getFallbackExerciseConfig exerciseType) ∧
      (getExerciseConfig st cresps randSuffix exerciseType).state.configCache =
        st.configCache ∧
      (getExerciseConfig st cresps randSuffix exerciseType).state.requestQueue =
        st.requestQueue) := by
  have hgc : getCachedConfig st.configCache st.now exerciseType =
      (none, st.configCache) := by
    simp [getCachedConfig, hmiss]
  constructor
  · intro hok hbody
    have hreq : configRequest exerciseType (cresps 0) =
        Except.ok (ConfigSuccess.fetched c) := by
      simp [configRequest, hok, hbody, Except.map]
    have htr := retryAux_first_ok (fun _ => true)
      (fun k => configRequest exerciseType (cresps k)) 0
      (ConfigSuccess.fetched c) rfl hreq st.retryConfig.maxRetries
    have hmain : getExerciseConfig st cresps randSuffix exerciseType =
        ⟨Except.ok c,
          cacheConfig { st with configCache := st.configCache } exerciseType c, 1⟩ := by
      simp [getExerciseConfig, hurl, hgc, hon, executeWithRetry, htr]
    refine ⟨by rw [hmain], by rw [hmain]; simp [cacheConfig], ?_⟩
    intro cresps' randSuffix'
    rw [hmain]
    exact getExerciseConfig_cache_hit _ u exerciseType
      ⟨c, st.now, st.now + cacheDurationMs⟩ cresps' randSuffix'
      (by simp [cacheConfig, hurl])
      (by simp [cacheConfig]; exact cacheLookup_cacheSet_self _ _ _)
      (by simp [cacheConfig, cacheDurationMs])
  · intro hstatus
    have hreq : configRequest exerciseType (cresps 0) =
        Except.ok (ConfigSuccess.fallback (getFallbackExerciseConfig exerciseType)) := by
      rcases hstatus with h | h | h | h <;> simp [configRequest, h, statusOk]
    have htr := retryAux_first_ok (fun _ => true)
      (fun k => configRequest exerciseType (cresps k)) 0
      (ConfigSuccess.fallback (getFallbackExerciseConfig exerciseType)) rfl hreq
      st.retryConfig.maxRetries
    have hmain : getExerciseConfig st cresps randSuffix exerciseType =
        ⟨Except.ok (getFallbackExerciseConfig exerciseType),
          { st with configCache := st.configCache }, 1⟩ := by
      simp [getExerciseConfig, hurl, hgc, hon, executeWithRetry, htr]
    exact ⟨by rw [hmain], by rw [hmain], by rw [hmain]⟩

/-- Witness for C4 amended: a fetched config is cached and then served
from cache with 0 network calls; a 404 fallback is returned with the
cache left empty. -/
theorem c4_config_caching_amended_witness :
    (getExerciseConfig stOnline (fun _ => ⟨200, Except.ok pushUpFallbackConfig⟩)
      "r" "bench").result = Except.ok pushUpFallbackConfig ∧
    (getExerciseConfig stOnline (fun _ => ⟨200, Except.ok pushUpFallbackConfig⟩)
      "r" "bench").state.configCache =
      cacheSet stOnline.configCache "bench"
        ⟨pushUpFallbackConfig, stOnline.now, stOnline.now + cacheDurationMs⟩ ∧
    getExerciseConfig
      (getExerciseConfig stOnline (fun _ => ⟨200, Except.ok pushUpFallbackConfig⟩)
        "r" "bench").state
      (fun _ => ⟨500, Except.error "server"⟩) "r2" "bench" =
      ⟨Except.ok pushUpFallbackConfig,
        (getExerciseConfig stOnline (fun _ => ⟨200, Except.ok pushUpFallbackConfig⟩)
          "r" "bench").state, 0⟩ ∧
    (getExerciseConfig stOnline (fun _ => ⟨404, Except.error "nf"⟩)
      "r" "squat").result = Except.ok (getFallbackExerciseConfig "squat") ∧
    (getExerciseConfig stOnline (fun _ => ⟨404, Except.error "nf"⟩)
      "r" "squat").state.configCache = stOnline.configCache :=
  ⟨((c4_config_caching_amended stOnline "http://192.168.1.10:8000" "bench" "r"
      (fun _ => ⟨200, Except.ok pushUpFallbackConfig⟩) pushUpFallbackConfig
      rfl rfl rfl).1 rfl rfl).1,
   ((c4_config_caching_amended stOnline "http://192.168.1.10:8000" "bench" "r"
      (fun _ => ⟨200, Except.ok pushUpFallbackConfig⟩) pushUpFallbackConfig
      rfl rfl rfl).1 rfl rfl).2.1,
   ((c4_config_caching_amended stOnline "http://192.168.1.10:8000" "bench" "r"
      (fun _ => ⟨200, Except.ok pushUpFallbackConfig⟩) pushUpFallbackConfig
      rfl rfl rfl).1 rfl rfl).2.2 (fun _ => ⟨500, Except.error "server"⟩) "r2",
   ((c4_config_caching_amended stOnline "http://192.168.1.10:8000" "squat" "r"
      (fun _ => ⟨404, Except.error "nf"⟩) pushUpFallbackConfig
      rfl rfl rfl).2 (Or.inr (Or.inr (Or.inl rfl)))).1,
   (((c4_config_caching_amended stOnline "http://192.168.1.10:8000" "squat" "r"
      (fun _ => ⟨404, Except.error "nf"⟩) pushUpFallbackConfig
      rfl rfl rfl).2 (Or.inr (Or.inr (Or.inl rfl)))).2).1⟩
